import Mathlib

/-!
Verification of the ESP32 web-server control sketch
(src/49_WebServer_Control_by_Web_or_Python.ino).

The sketch keeps four global state variables (ledState, relayState,
analogValue, buttonState), registers eight GET routes plus a 404
fallback on a WebServer object, and runs a cooperative loop that first
services at most one pending HTTP request and then samples the analog
and button input pins.

The embedding below translates the device state, each route handler
lambda, the dispatcher, the sensor-sampling pass and the main loop
iteration into pure Lean functions.  Physical pin levels written by
digitalWrite are modelled as two extra boolean fields of the state
(ledPinLevel, relayPinLevel; HIGH = true, LOW = false).  Environment
values supplied by the WiFi / ESP collaborators (IP, MAC, free heap,
chip id) are threaded through an Env record.  The static HTML control
panel served at "/" is a fixed document external to the behavioural
core; it is modelled as a dedicated body constructor whose text we do
not inspect.
-/

/-- A JSON value as placed into a DynamicJsonDocument by the sketch:
booleans, integers (all non-negative in this program), the one double
(voltage, modelled exactly as a rational) and strings. -/
inductive JsonVal where
  | bool (b : Bool)
  | nat (n : Nat)
  | rat (q : Rat)
  | str (s : String)
deriving Repr, DecidableEq

/-- Body of an HTTP response: either the static HTML control panel
(served at "/") or a flat JSON object, kept as the ordered field list
in which the sketch inserts the fields. -/
inductive Body where
  | htmlPanel
  | json (fields : List (String × JsonVal))
deriving Repr, DecidableEq

/-- An HTTP response as produced by server.send(status, contentType, payload). -/
structure Response where
  status : Nat
  contentType : String
  body : Body
deriving Repr, DecidableEq

/-- Look up a JSON field of a response body (none for the HTML panel). -/
def Response.field (r : Response) (k : String) : Option JsonVal :=
  match r.body with
  | .htmlPanel => none
  | .json fs => List.lookup k fs

/-- The global device state of the sketch: the four state variables
declared at top level (ledState, relayState, analogValue, buttonState)
together with the levels last written to the two output pins. -/
structure DeviceState where
  ledState : Bool
  relayState : Bool
  analogValue : Nat
  buttonState : Bool
  ledPinLevel : Bool
  relayPinLevel : Bool
deriving Repr, DecidableEq

/-- State after setup(): the globals start as false/false/0/false and
setup writes LOW to both output pins. -/
def initialState : DeviceState :=
  { ledState := false, relayState := false, analogValue := 0,
    buttonState := false, ledPinLevel := false, relayPinLevel := false }

/-- Environment values obtained from the WiFi and ESP collaborators,
used only by the device-info handler. -/
structure Env where
  localIP : String
  macAddress : String
  freeHeap : Nat
  efuseMac : Nat
deriving Repr, DecidableEq

/-- HTTP request methods distinguished by the WebServer library; every
route of the sketch is registered with HTTP_GET. -/
inductive HMethod where
  | GET
  | POST
  | PUT
  | PATCH
  | DELETE
  | OPTIONS
deriving Repr, DecidableEq

/-- sendSuccessResponse(message): a 200 application/json response with
success, message, and the current led/relay state, in insertion order. -/
def sendSuccessResponse (message : String) (s : DeviceState) : Response :=
  { status := 200, contentType := "application/json",
    body := .json [("success", .bool true), ("message", .str message),
                   ("led_state", .bool s.ledState),
                   ("relay_state", .bool s.relayState)] }

/-- Handler for GET "/": serves the static HTML control panel. -/
def handleRoot (s : DeviceState) : DeviceState × Response :=
  (s, { status := 200, contentType := "text/html", body := .htmlPanel })

/-- Handler for GET "/api/device/info". -/
def handleDeviceInfo (env : Env) (s : DeviceState) : DeviceState × Response :=
  (s, { status := 200, contentType := "application/json",
        body := .json [("device", .str "ESP32"), ("ip", .str env.localIP),
                       ("mac", .str env.macAddress),
                       ("free_heap", .nat env.freeHeap),
                       ("chip_id", .nat env.efuseMac)] })

/-- Handler for GET "/api/led/on": digitalWrite(ledPin, HIGH), then
ledState = true, then sendSuccessResponse. -/
def handleLedOn (s : DeviceState) : DeviceState × Response :=
  let s1 := { s with ledPinLevel := true }
  let s2 := { s1 with ledState := true }
  (s2, sendSuccessResponse "LED已打开" s2)

/-- Handler for GET "/api/led/off": digitalWrite(ledPin, LOW), then
ledState = false, then sendSuccessResponse. -/
def handleLedOff (s : DeviceState) : DeviceState × Response :=
  let s1 := { s with ledPinLevel := false }
  let s2 := { s1 with ledState := false }
  (s2, sendSuccessResponse "LED已关闭" s2)

/-- Handler for GET "/api/led/toggle": ledState = not ledState, then
digitalWrite(ledPin, ledState), then sendSuccessResponse with a
message depending on the new state. -/
def handleLedToggle (s : DeviceState) : DeviceState × Response :=
  let s1 := { s with ledState := !s.ledState }
  let s2 := { s1 with ledPinLevel := s1.ledState }
  (s2, sendSuccessResponse (if s2.ledState then "LED已打开" else "LED已关闭") s2)

/-- Handler for GET "/api/relay/on": digitalWrite(relayPin, HIGH),
then relayState = true, then sendSuccessResponse. -/
def handleRelayOn (s : DeviceState) : DeviceState × Response :=
  let s1 := { s with relayPinLevel := true }
  let s2 := { s1 with relayState := true }
  (s2, sendSuccessResponse "继电器已打开" s2)

/-- Handler for GET "/api/relay/off": digitalWrite(relayPin, LOW),
then relayState = false, then sendSuccessResponse. -/
def handleRelayOff (s : DeviceState) : DeviceState × Response :=
  let s1 := { s with relayPinLevel := false }
  let s2 := { s1 with relayState := false }
  (s2, sendSuccessResponse "继电器已关闭" s2)

/-- Handler for GET "/api/sensor/data": reads the four state fields and
reports the voltage (analogValue * 3.3) / 4095.0, with 3.3 modelled
exactly as the rational 33/10. -/
def handleSensorData (s : DeviceState) : DeviceState × Response :=
  (s, { status := 200, contentType := "application/json",
        body := .json [("analog_value", .nat s.analogValue),
                       ("voltage", .rat (((s.analogValue : Rat) * (33 / 10)) / 4095)),
                       ("button_pressed", .bool s.buttonState),
                       ("led_state", .bool s.ledState),
                       ("relay_state", .bool s.relayState)] })

/-- The onNotFound handler: a 404 application/json response with
error = true and the fixed message. -/
def handleNotFound (s : DeviceState) : DeviceState × Response :=
  (s, { status := 404, contentType := "application/json",
        body := .json [("error", .bool true), ("message", .str "API端点不存在")] })

/-- The paths registered with server.on in setupRoutes, all under HTTP_GET. -/
def routePaths : List String :=
  ["/", "/api/device/info", "/api/led/on", "/api/led/off", "/api/led/toggle",
   "/api/relay/on", "/api/relay/off", "/api/sensor/data"]

/-- Whether an inbound (method, path) pair matches one of the fixed routes:
the WebServer matches the URI exactly against a registered path and checks
the registered method. -/
def matchesRoute (m : HMethod) (p : String) : Bool :=
  m == HMethod.GET && routePaths.contains p

/-- The route dispatcher: exact method+path lookup over the routes
registered in setupRoutes, falling back to the onNotFound handler. -/
def handleRequest (env : Env) (s : DeviceState) (m : HMethod) (p : String) :
    DeviceState × Response :=
  match m with
  | .GET =>
    if p = "/" then handleRoot s
    else if p = "/api/device/info" then handleDeviceInfo env s
    else if p = "/api/led/on" then handleLedOn s
    else if p = "/api/led/off" then handleLedOff s
    else if p = "/api/led/toggle" then handleLedToggle s
    else if p = "/api/relay/on" then handleRelayOn s
    else if p = "/api/relay/off" then handleRelayOff s
    else if p = "/api/sensor/data" then handleSensorData s
    else handleNotFound s
  | _ => handleNotFound s

/-- updateSensorData(): writes the analog pin reading into analogValue
and the button pin reading into buttonState, unconditionally. -/
def updateSensorData (s : DeviceState) (analogReading : Nat)
    (buttonReading : Bool) : DeviceState :=
  { s with analogValue := analogReading, buttonState := buttonReading }

/-- One iteration of loop(): server.handleClient() services the pending
request, if any, and then updateSensorData() samples the input pins. -/
def loopIter (env : Env) (s : DeviceState) (req : Option (HMethod × String))
    (analogReading : Nat) (buttonReading : Bool) :
    DeviceState × Option Response :=
  match req with
  | none => (updateSensorData s analogReading buttonReading, none)
  | some (m, p) =>
    let hr := handleRequest env s m p
    (updateSensorData hr.1 analogReading buttonReading, some hr.2)

/-- The observable input of one loop iteration: the pending request, if
any, and the values the two input pins read during the sampling pass. -/
structure LoopInput where
  req : Option (HMethod × String)
  analogReading : Nat
  buttonReading : Bool
deriving Repr

/-- Run a sequence of loop iterations, threading the device state. -/
def runLoop (env : Env) (s : DeviceState) : List LoopInput → DeviceState
  | [] => s
  | i :: rest => runLoop env (loopIter env s i.req i.analogReading i.buttonReading).1 rest

/-- The last sampled readings after a list of iterations, starting from
a default pair (every iteration samples once, at its end). -/
def lastReadingsFrom (d : Nat × Bool) : List LoopInput → Nat × Bool
  | [] => d
  | i :: rest => lastReadingsFrom (i.analogReading, i.buttonReading) rest

/-- The readings held in the state after running a list of iterations
from boot: 0/false if the list is empty, else the last iteration's. -/
def lastReadings (l : List LoopInput) : Nat × Bool :=
  lastReadingsFrom (0, false) l

/-- An LED operation, as named by the three LED control routes. -/
inductive LedOp where
  | opOn
  | opOff
  | opToggle
deriving Repr, DecidableEq

/-- The route path of an LED operation. -/
def LedOp.path : LedOp → String
  | .opOn => "/api/led/on"
  | .opOff => "/api/led/off"
  | .opToggle => "/api/led/toggle"

/-- The boolean effect of one LED operation on the led state. -/
def LedOp.apply (b : Bool) : LedOp → Bool
  | .opOn => true
  | .opOff => false
  | .opToggle => !b

/-- Fold a list of LED operations over a starting boolean state. -/
def foldLed (b : Bool) : List LedOp → Bool
  | [] => b
  | op :: rest => foldLed (LedOp.apply b op) rest

/-- Process a list of LED requests through the dispatcher. -/
def runLed (env : Env) (s : DeviceState) : List LedOp → DeviceState
  | [] => s
  | op :: rest => runLed env (handleRequest env s HMethod.GET op.path).1 rest

/-- A sample environment used to instantiate universally quantified
theorems at concrete inputs. -/
def env0 : Env :=
  { localIP := "192.168.1.50", macAddress := "24:62:AB:CA:10:00",
    freeHeap := 200000, efuseMac := 123456 }

/-- The pin/state consistency invariant: the level last written to each
output pin agrees with the corresponding state variable. -/
def pinsConsistent (s : DeviceState) : Prop :=
  s.ledPinLevel = s.ledState ∧ s.relayPinLevel = s.relayState

/-! ## Helper lemmas about the dispatcher and the loop -/

/-- A request matching no registered route is handled by the onNotFound
handler, which leaves the state untouched. -/
theorem handleRequest_not_found (env : Env) (s : DeviceState) (m : HMethod) (p : String)
    (h : matchesRoute m p = false) :
    handleRequest env s m p = handleNotFound s := by
  cases m
  case GET =>
    simp [matchesRoute, routePaths] at h
    obtain ⟨h1, h2, h3, h4, h5, h6, h7, h8⟩ := h
    simp [handleRequest, h1, h2, h3, h4, h5, h6, h7, h8]
  all_goals rfl

/-- No request handler writes the sensor fields of the state. -/
theorem handleRequest_sensors (env : Env) (s : DeviceState) (m : HMethod) (p : String) :
    (handleRequest env s m p).1.analogValue = s.analogValue ∧
    (handleRequest env s m p).1.buttonState = s.buttonState := by
  cases m
  case GET =>
    simp only [handleRequest]
    split_ifs <;>
      simp [handleRoot, handleDeviceInfo, handleLedOn, handleLedOff, handleLedToggle,
            handleRelayOn, handleRelayOff, handleSensorData, handleNotFound]
  all_goals simp [handleRequest, handleNotFound]

/-- Only the three LED routes write ledState. -/
theorem handleRequest_led_frame (env : Env) (s : DeviceState) (m : HMethod) (p : String)
    (h : p ∉ (["/api/led/on", "/api/led/off", "/api/led/toggle"] : List String)) :
    (handleRequest env s m p).1.ledState = s.ledState := by
  simp only [List.mem_cons, List.not_mem_nil, or_false, not_or] at h
  obtain ⟨h1, h2, h3⟩ := h
  cases m
  case GET =>
    simp only [handleRequest]
    split_ifs <;>
      simp_all [handleRoot, handleDeviceInfo, handleLedOn, handleLedOff, handleLedToggle,
            handleRelayOn, handleRelayOff, handleSensorData, handleNotFound]
  all_goals simp [handleRequest, handleNotFound]

/-- Only the two relay routes write relayState. -/
theorem handleRequest_relay_frame (env : Env) (s : DeviceState) (m : HMethod) (p : String)
    (h : p ∉ (["/api/relay/on", "/api/relay/off"] : List String)) :
    (handleRequest env s m p).1.relayState = s.relayState := by
  simp only [List.mem_cons, List.not_mem_nil, or_false, not_or] at h
  obtain ⟨h1, h2⟩ := h
  cases m
  case GET =>
    simp only [handleRequest]
    split_ifs <;>
      simp_all [handleRoot, handleDeviceInfo, handleLedOn, handleLedOff, handleLedToggle,
            handleRelayOn, handleRelayOff, handleSensorData, handleNotFound]
  all_goals simp [handleRequest, handleNotFound]

/-- Every handler preserves agreement between the output pins and the
led/relay state fields. -/
theorem handleRequest_pins (env : Env) (s : DeviceState) (m : HMethod) (p : String)
    (hl : s.ledPinLevel = s.ledState) (hr : s.relayPinLevel = s.relayState) :
    (handleRequest env s m p).1.ledPinLevel = (handleRequest env s m p).1.ledState ∧
    (handleRequest env s m p).1.relayPinLevel = (handleRequest env s m p).1.relayState := by
  cases m
  case GET =>
    simp only [handleRequest]
    split_ifs <;>
      simp_all [handleRoot, handleDeviceInfo, handleLedOn, handleLedOff, handleLedToggle,
            handleRelayOn, handleRelayOff, handleSensorData, handleNotFound]
  all_goals simp_all [handleRequest, handleNotFound]

/-- One LED request updates ledState by the operation's boolean effect,
and the LED pin ends the request agreeing with ledState. -/
theorem handleLed_step (env : Env) (s : DeviceState) (op : LedOp) :
    (handleRequest env s HMethod.GET op.path).1.ledState = LedOp.apply s.ledState op ∧
    (handleRequest env s HMethod.GET op.path).1.ledPinLevel
      = (handleRequest env s HMethod.GET op.path).1.ledState := by
  cases op <;>
    simp [LedOp.path, LedOp.apply, handleRequest, handleLedOn, handleLedOff, handleLedToggle]

/-- Running a list of LED requests computes the fold of their effects. -/
theorem runLed_ledState (env : Env) (s : DeviceState) (ops : List LedOp) :
    (runLed env s ops).ledState = foldLed s.ledState ops := by
  induction ops generalizing s with
  | nil => rfl
  | cons op rest ih =>
    simp only [runLed, foldLed]
    rw [ih, (handleLed_step env s op).1]

/-- The LED pin agrees with ledState after any run of LED requests that
starts from an agreeing state. -/
theorem runLed_pin (env : Env) (s : DeviceState) (ops : List LedOp)
    (h : s.ledPinLevel = s.ledState) :
    (runLed env s ops).ledPinLevel = (runLed env s ops).ledState := by
  induction ops generalizing s with
  | nil => exact h
  | cons op rest ih =>
    exact ih _ (handleLed_step env s op).2

/-- After any run of loop iterations the stored sensor fields are the
readings of the most recent sampling pass. -/
theorem runLoop_sensors (env : Env) (s : DeviceState) (l : List LoopInput) :
    (runLoop env s l).analogValue = (lastReadingsFrom (s.analogValue, s.buttonState) l).1 ∧
    (runLoop env s l).buttonState = (lastReadingsFrom (s.analogValue, s.buttonState) l).2 := by
  induction l generalizing s with
  | nil => simp [runLoop, lastReadingsFrom]
  | cons i rest ih =>
    have hstep :
        (loopIter env s i.req i.analogReading i.buttonReading).1.analogValue
            = i.analogReading ∧
        (loopIter env s i.req i.analogReading i.buttonReading).1.buttonState
            = i.buttonReading := by
      cases hreq : i.req with
      | none => simp [loopIter, updateSensorData]
      | some mp => cases mp with
        | mk m p => simp [loopIter, updateSensorData]
    have h := ih ((loopIter env s i.req i.analogReading i.buttonReading).1)
    rw [hstep.1, hstep.2] at h
    simpa only [runLoop, lastReadingsFrom] using h

/-! ## Claim theorems -/

/-- Claim C1: for every finite sequence of LED on/off/toggle requests
starting from the post-setup state, ledState after the sequence equals
the boolean fold of the operations over false (on maps to true, off to
false, toggle negates), and after every individual request (every
prefix of the sequence) the LED pin level equals ledState. -/
theorem led_fold_correct (env : Env) (ops : List LedOp) :
    (runLed env initialState ops).ledState = foldLed false ops ∧
    ∀ pre suf, ops = pre ++ suf →
      (runLed env initialState pre).ledPinLevel
        = (runLed env initialState pre).ledState := by
  constructor
  · exact runLed_ledState env initialState ops
  · intro pre _ _
    exact runLed_pin env initialState pre rfl

/-- Witness for C1 at the concrete sequence [on, toggle], with the
prefix [on] discharging the prefix hypothesis. -/
theorem led_fold_correct_witness :
    (runLed env0 initialState [LedOp.opOn, LedOp.opToggle]).ledState
        = foldLed false [LedOp.opOn, LedOp.opToggle] ∧
    (runLed env0 initialState [LedOp.opOn]).ledPinLevel
        = (runLed env0 initialState [LedOp.opOn]).ledState :=
  ⟨(led_fold_correct env0 [LedOp.opOn, LedOp.opToggle]).1,
   (led_fold_correct env0 [LedOp.opOn, LedOp.opToggle]).2 [LedOp.opOn] [LedOp.opToggle] rfl⟩

/-- Claim C2: every (method, path) pair matching none of the fixed
routes yields, in every device state, a 404 response whose body has
error = true and a message field, with the state left unchanged (the
handler is a total function, so such a request is never fatal). -/
theorem not_found_error_response (env : Env) (s : DeviceState) (m : HMethod) (p : String)
    (h : matchesRoute m p = false) :
    (handleRequest env s m p).1 = s ∧
    (handleRequest env s m p).2.status = 404 ∧
    (handleRequest env s m p).2.field "error" = some (JsonVal.bool true) ∧
    (handleRequest env s m p).2.field "message" = some (JsonVal.str "API端点不存在") := by
  rw [handleRequest_not_found env s m p h]
  simp [handleNotFound, Response.field, List.lookup]

/-- Witness for C2 at GET "/api/unknown" in the initial state. -/
theorem not_found_error_response_witness :
    matchesRoute HMethod.GET "/api/unknown" = false ∧
    ((handleRequest env0 initialState HMethod.GET "/api/unknown").1 = initialState ∧
     (handleRequest env0 initialState HMethod.GET "/api/unknown").2.status = 404 ∧
     (handleRequest env0 initialState HMethod.GET "/api/unknown").2.field "error"
        = some (JsonVal.bool true) ∧
     (handleRequest env0 initialState HMethod.GET "/api/unknown").2.field "message"
        = some (JsonVal.str "API端点不存在")) :=
  ⟨by decide, not_found_error_response env0 initialState HMethod.GET "/api/unknown" (by decide)⟩

/-- Claim C3: for every stored analog value in [0, 4095], the voltage
field of the GET /api/sensor/data response equals
analogValue * 3.3 / 4095, stated exactly over the rationals with 3.3
as 33/10. -/
theorem sensor_voltage_formula (env : Env) (s : DeviceState) (_h : s.analogValue ≤ 4095) :
    (handleRequest env s HMethod.GET "/api/sensor/data").2.field "voltage"
      = some (JsonVal.rat ((s.analogValue : Rat) * (33 / 10) / 4095)) := by
  simp [handleRequest, handleSensorData, Response.field, List.lookup]

/-- Witness for C3 at the initial state, whose analog value 0 is in range. -/
theorem sensor_voltage_formula_witness :
    initialState.analogValue ≤ 4095 ∧
    (handleRequest env0 initialState HMethod.GET "/api/sensor/data").2.field "voltage"
      = some (JsonVal.rat ((initialState.analogValue : Rat) * (33 / 10) / 4095)) :=
  ⟨by decide, sensor_voltage_formula env0 initialState (by decide)⟩

/-- Claim C4: the pin/state consistency invariant holds after setup, is
preserved by every request handler and by every sampling pass, and each
of the five actuator handlers re-establishes agreement for its own pin
unconditionally within the same operation, so at every observation
point between operations the pin levels equal the state fields. -/
theorem pin_state_sync :
    pinsConsistent initialState ∧
    (∀ env s m p, pinsConsistent s → pinsConsistent (handleRequest env s m p).1) ∧
    (∀ s a b, pinsConsistent s → pinsConsistent (updateSensorData s a b)) ∧
    (∀ env s,
      (handleRequest env s HMethod.GET "/api/led/on").1.ledPinLevel
        = (handleRequest env s HMethod.GET "/api/led/on").1.ledState ∧
      (handleRequest env s HMethod.GET "/api/led/off").1.ledPinLevel
        = (handleRequest env s HMethod.GET "/api/led/off").1.ledState ∧
      (handleRequest env s HMethod.GET "/api/led/toggle").1.ledPinLevel
        = (handleRequest env s HMethod.GET "/api/led/toggle").1.ledState ∧
      (handleRequest env s HMethod.GET "/api/relay/on").1.relayPinLevel
        = (handleRequest env s HMethod.GET "/api/relay/on").1.relayState ∧
      (handleRequest env s HMethod.GET "/api/relay/off").1.relayPinLevel
        = (handleRequest env s HMethod.GET "/api/relay/off").1.relayState) := by
  refine ⟨⟨rfl, rfl⟩, ?_, ?_, ?_⟩
  · intro env s m p hps
    exact handleRequest_pins env s m p hps.1 hps.2
  · intro s a b hps
    simpa [pinsConsistent, updateSensorData] using hps
  · intro env s
    refine ⟨?_, ?_, ?_, ?_, ?_⟩ <;>
      simp [handleRequest, handleLedOn, handleLedOff, handleLedToggle,
            handleRelayOn, handleRelayOff]

/-- Witness for C4: the invariant holds after a toggle request handled
in the initial state, obtained from the preservation part at the
initial state. -/
theorem pin_state_sync_witness :
    pinsConsistent (handleRequest env0 initialState HMethod.GET "/api/led/toggle").1 :=
  pin_state_sync.2.1 env0 initialState HMethod.GET "/api/led/toggle" pin_state_sync.1

/-- Claim C5: from every starting state, GET /api/relay/on followed by
GET /api/relay/off leaves relayState false, and the success response of
the second request reports the relay state field (JSON key
"relay_state", the spec's relayOn) as false. -/
theorem relay_on_then_off (env : Env) (s : DeviceState) :
    (handleRequest env (handleRequest env s HMethod.GET "/api/relay/on").1
        HMethod.GET "/api/relay/off").1.relayState = false ∧
    (handleRequest env (handleRequest env s HMethod.GET "/api/relay/on").1
        HMethod.GET "/api/relay/off").2.field "relay_state" = some (JsonVal.bool false) ∧
    (handleRequest env (handleRequest env s HMethod.GET "/api/relay/on").1
        HMethod.GET "/api/relay/off").2.field "success" = some (JsonVal.bool true) := by
  simp [handleRequest, handleRelayOn, handleRelayOff, sendSuccessResponse,
        Response.field, List.lookup]

/-- Claim C6: GET /api/led/on is idempotent: from every starting state,
ledState is true after the first request and still true after repeating
the request. -/
theorem led_on_idempotent (env : Env) (s : DeviceState) :
    (handleRequest env s HMethod.GET "/api/led/on").1.ledState = true ∧
    (handleRequest env (handleRequest env s HMethod.GET "/api/led/on").1
        HMethod.GET "/api/led/on").1.ledState = true := by
  simp [handleRequest, handleLedOn]

/-- Claim C7: a single sampling pass stores exactly the raw pin
readings into analogValue and buttonState, unconditionally, for every
prior state and every pair of readings. -/
theorem updateSensorData_raw_write (s : DeviceState) (a : Nat) (b : Bool) :
    (updateSensorData s a b).analogValue = a ∧
    (updateSensorData s a b).buttonState = b := by
  simp [updateSensorData]

/-- Claim C8: write ownership is partitioned: no handler writes the
sensor fields; ledState changes only under the three LED paths;
relayState only under the two relay paths; the sampling pass leaves
ledState and relayState alone; and the root, device-info, sensor-data
and not-found handlers leave the whole state unchanged. -/
theorem write_ownership_partition :
    (∀ env s m p, (handleRequest env s m p).1.analogValue = s.analogValue ∧
        (handleRequest env s m p).1.buttonState = s.buttonState) ∧
    (∀ env s m p, p ∉ (["/api/led/on", "/api/led/off", "/api/led/toggle"] : List String) →
        (handleRequest env s m p).1.ledState = s.ledState) ∧
    (∀ env s m p, p ∉ (["/api/relay/on", "/api/relay/off"] : List String) →
        (handleRequest env s m p).1.relayState = s.relayState) ∧
    (∀ s a b, (updateSensorData s a b).ledState = s.ledState ∧
        (updateSensorData s a b).relayState = s.relayState) ∧
    (∀ env s, (handleRequest env s HMethod.GET "/").1 = s) ∧
    (∀ env s, (handleRequest env s HMethod.GET "/api/device/info").1 = s) ∧
    (∀ env s, (handleRequest env s HMethod.GET "/api/sensor/data").1 = s) ∧
    (∀ env s m p, matchesRoute m p = false → (handleRequest env s m p).1 = s) := by
  refine ⟨fun env s m p => handleRequest_sensors env s m p,
          fun env s m p h => handleRequest_led_frame env s m p h,
          fun env s m p h => handleRequest_relay_frame env s m p h,
          fun s a b => ⟨rfl, rfl⟩,
          fun env s => rfl,
          fun env s => rfl,
          fun env s => rfl,
          fun env s m p h => by rw [handleRequest_not_found env s m p h]; rfl⟩

/-- Witness for C8: a relay request leaves ledState alone, an LED
request leaves relayState alone, and a POST to an LED path (no route)
leaves the whole state alone, all in the initial state. -/
theorem write_ownership_partition_witness :
    ((handleRequest env0 initialState HMethod.GET "/api/relay/on").1.ledState
        = initialState.ledState) ∧
    ((handleRequest env0 initialState HMethod.GET "/api/led/on").1.relayState
        = initialState.relayState) ∧
    ((handleRequest env0 initialState HMethod.POST "/api/led/on").1 = initialState) :=
  ⟨write_ownership_partition.2.1 env0 initialState HMethod.GET "/api/relay/on" (by decide),
   write_ownership_partition.2.2.1 env0 initialState HMethod.GET "/api/led/on" (by decide),
   write_ownership_partition.2.2.2.2.2.2.2 env0 initialState HMethod.POST "/api/led/on"
     (by decide)⟩

/-- Claim C9: each of the five actuator handlers responds through the
shared builder sendSuccessResponse applied to its post-request state,
and that builder always produces status 200 with exactly the four
fields success = true, message, led_state, relay_state, in that order,
carrying the post-request state values. -/
theorem actuator_shared_response (env : Env) (s : DeviceState) :
    ((handleRequest env s HMethod.GET "/api/led/on").2
        = sendSuccessResponse "LED已打开" (handleRequest env s HMethod.GET "/api/led/on").1) ∧
    ((handleRequest env s HMethod.GET "/api/led/off").2
        = sendSuccessResponse "LED已关闭" (handleRequest env s HMethod.GET "/api/led/off").1) ∧
    ((handleRequest env s HMethod.GET "/api/led/toggle").2
        = sendSuccessResponse
            (if (handleRequest env s HMethod.GET "/api/led/toggle").1.ledState
              then "LED已打开" else "LED已关闭")
            (handleRequest env s HMethod.GET "/api/led/toggle").1) ∧
    ((handleRequest env s HMethod.GET "/api/relay/on").2
        = sendSuccessResponse "继电器已打开" (handleRequest env s HMethod.GET "/api/relay/on").1) ∧
    ((handleRequest env s HMethod.GET "/api/relay/off").2
        = sendSuccessResponse "继电器已关闭" (handleRequest env s HMethod.GET "/api/relay/off").1) ∧
    (∀ msg t, (sendSuccessResponse msg t).status = 200 ∧
        (sendSuccessResponse msg t).body
          = Body.json [("success", JsonVal.bool true), ("message", JsonVal.str msg),
                       ("led_state", JsonVal.bool t.ledState),
                       ("relay_state", JsonVal.bool t.relayState)]) := by
  refine ⟨?_, ?_, ?_, ?_, ?_, fun msg t => ⟨rfl, rfl⟩⟩ <;>
    simp [handleRequest, handleLedOn, handleLedOff, handleLedToggle,
          handleRelayOn, handleRelayOff]

/-- Claim C10: within a loop iteration the request is handled before
the sampling pass, and therefore a GET /api/sensor/data request
serviced after any run of prior iterations reports the readings of the
most recent previous sampling pass (0 and false if none ran), never the
readings sampled later in its own iteration. -/
theorem sensor_reports_previous_iteration (env : Env) (pre : List LoopInput)
    (a : Nat) (b : Bool) :
    (∀ s m p, loopIter env s (some (m, p)) a b
        = (updateSensorData (handleRequest env s m p).1 a b,
           some (handleRequest env s m p).2)) ∧
    ∃ r, (loopIter env (runLoop env initialState pre)
            (some (HMethod.GET, "/api/sensor/data")) a b).2 = some r ∧
      r.field "analog_value" = some (JsonVal.nat (lastReadings pre).1) ∧
      r.field "button_pressed" = some (JsonVal.bool (lastReadings pre).2) := by
  constructor
  · intro s m p
    rfl
  · refine ⟨(handleRequest env (runLoop env initialState pre)
        HMethod.GET "/api/sensor/data").2, rfl, ?_, ?_⟩
    all_goals
      have h := runLoop_sensors env initialState pre
      simp only [initialState] at h
      simp [handleRequest, handleSensorData, Response.field, List.lookup, lastReadings]
      tauto
